import Mathlib

/-
Verification of the CUPRA RAG pipeline (src/services/llm/cupra_retrieval.py and
src/services/llm/cupra_rag_pipeline.py) against its natural-language design
specification.

Modelling conventions (shallow embedding):
* Python functions that can raise are modelled as state-passing computations of
  type `PyM α = Trace → Except PyErr α × Trace`.  The `Trace` component counts
  the external calls made (embedding-model calls and language-model calls), so
  "makes no LLM call" is a provable statement about the final trace.
* External collaborators (OpenAI embedding endpoint, OpenAI chat endpoint,
  PostgreSQL connection / queries) are parameters: an `Except String _` value
  is the outcome the collaborator would produce if called (`.error msg` models
  the collaborator raising an exception whose `str()` is `msg`).
* The `logger` arguments of the Python code default to `None`; calling a
  method on `None` raises `AttributeError`.  A present logger never raises
  (Python's logging module swallows handler errors).  We model the logger as a
  `Bool` (`true` = a logger object was supplied) and every `logger.x(...)`
  statement as `withLog`.
* Cosine similarities are modelled as exact rationals `ℚ`; the pgvector
  distance operator `<=>` is an external database operator and is a parameter
  `dist : List ℚ → List ℚ → ℚ` of the database environment.
-/

/-- Python exception values relevant to this code base: `attributeError` models
`AttributeError` (raised by `None.info(...)` etc.), `exception msg` models any
other exception whose `str()` is `msg`. -/
inductive PyErr where
  | attributeError
  | exception (msg : String)
deriving DecidableEq, Repr

/-- `str(e)` of a modelled Python exception. -/
def pyStr : PyErr → String
  | .attributeError => "AttributeError: NoneType object has no attribute"
  | .exception m => m

/-- Instrumentation: how many external embedding-model and language-model calls
have been issued so far. -/
structure Trace where
  embedCalls : Nat
  llmCalls : Nat
deriving DecidableEq, Repr

def bumpEmbed (t : Trace) : Trace := Trace.mk (t.embedCalls + 1) t.llmCalls

def bumpLLM (t : Trace) : Trace := Trace.mk t.embedCalls (t.llmCalls + 1)

/-- A Python computation: threads the call trace, may raise. -/
abbrev PyM (α : Type) := Trace → Except PyErr α × Trace

def pyPure {α : Type} (a : α) : PyM α := fun t => (.ok a, t)

def pyThrow {α : Type} (e : PyErr) : PyM α := fun t => (.error e, t)

def pyBind {α β : Type} (m : PyM α) (f : α → PyM β) : PyM β := fun t =>
  match m t with
  | (.ok a, s) => f a s
  | (.error e, s) => (.error e, s)

/-- Python `try: body except Exception: handler`. -/
def pyTry {α : Type} (body : PyM α) (handler : PyErr → PyM α) : PyM α := fun t =>
  match body t with
  | (.ok a, s) => (.ok a, s)
  | (.error e, s) => handler e s

/-- A `logger.info/debug/warning/error(...)` statement followed by `k`:
succeeds (and does nothing observable) when a logger object is present,
raises `AttributeError` when the logger is `None`. -/
def withLog {α : Type} (hasLogger : Bool) (k : PyM α) : PyM α := fun t =>
  if hasLogger then k t else (.error .attributeError, t)

/-- A row of the `cupra_chunks` table, in the store's natural scan order.
`title`, `contenido`, `char_count`, `subchunk` are nullable columns. -/
structure Row where
  id : Nat
  title : Option String
  contenido : Option String
  char_count : Option Int
  subchunk : Option Int
  embedding : List ℚ
  created_at : String

/-- Python `x or default` for a nullable string (both `None` and `""` are
falsy). -/
def pyOrStr (v : Option String) (d : String) : String :=
  match v with
  | none => d
  | some s => if s = "" then d else s

/-- Python `x or 0` for a nullable integer (`None` and `0` both yield `0`). -/
def pyOrInt (v : Option Int) : Int :=
  match v with
  | none => 0
  | some n => n

/-- A retrieved chunk as built by `buscar_chunks_similares` (dict keys
`chunk_id`, `titulo`, `cont`, `similitud`, `subchunk`, `num`, `created_at`). -/
structure Chunk where
  chunk_id : Nat
  titulo : String
  cont : String
  similitud : ℚ
  subchunk : Int
  num : Int
  created_at : String
deriving DecidableEq, Repr

/-- The database environment seen by one retrieval call: whether obtaining a
connection raises, whether executing the query raises, the stored corpus in
scan order, and the pgvector cosine-distance operator. -/
structure DBEnv where
  connectFail : Option String
  queryFail : Option String
  corpus : List Row
  dist : List ℚ → List ℚ → ℚ

/-- Stable insertion (ascending), keeping earlier scan-order rows first among
ties: models the unspecified tie-breaking of `ORDER BY`. -/
def insertRow (le : Row → Row → Bool) (a : Row) : List Row → List Row
  | [] => [a]
  | b :: bs => if le a b then a :: b :: bs else b :: insertRow le a bs

def sortRows (le : Row → Row → Bool) : List Row → List Row
  | [] => []
  | a :: rest => insertRow le a (sortRows le rest)

/-- `ORDER BY embedding <=> query_vector` over the whole table. -/
def sortByDist (dist : List ℚ → List ℚ → ℚ) (qv : List ℚ) (corpus : List Row) : List Row :=
  sortRows (fun r1 r2 => decide (dist r1.embedding qv ≤ dist r2.embedding qv)) corpus

/-- The SELECT list of the similarity query plus the row-to-dict conversion of
`buscar_chunks_similares`: `1 - (embedding <=> qv)` as `similitud`, with
`or`-defaults on nullable columns. -/
def rowToChunk (dist : List ℚ → List ℚ → ℚ) (qv : List ℚ) (r : Row) : Chunk :=
  Chunk.mk r.id (pyOrStr r.title "Sin título") (pyOrStr r.contenido "")
    (1 - dist r.embedding qv) (pyOrInt r.subchunk) (pyOrInt r.char_count) r.created_at

/-- Drop leading whitespace characters. -/
def dropLeadingWs : List Char → List Char
  | [] => []
  | c :: cs => if c.isWhitespace then dropLeadingWs cs else c :: cs

/-- Python `str.strip()`: remove leading and trailing whitespace.  Defined by
structural recursion so that concrete runs evaluate inside the kernel. -/
def pyStrip (s : String) : String :=
  String.mk ((dropLeadingWs ((dropLeadingWs s.data).reverse)).reverse)

/-- `CupraRetrieval.generar_embedding_query`: empty / whitespace-only query
short-circuits to `[]` without calling the embedding model; otherwise the
OpenAI embeddings call is attempted; on its failure the handler logs (raising
`AttributeError` when `logger` is `None`) and returns `[]`. -/
def generar_embedding_query (query : String) (hasLogger : Bool)
    (embedSvc : Except String (List ℚ)) : PyM (List ℚ) := fun t =>
  if pyStrip query = "" then (.ok [], t)
  else
    pyTry
      (fun t1 =>
        match embedSvc with
        | .ok v => (.ok v, bumpEmbed t1)
        | .error m => (.error (.exception m), bumpEmbed t1))
      (fun _ => withLog hasLogger (pyPure []))
      t

/-- `CupraRetrieval.buscar_chunks_similares`: the whole body is one
`try/except`; the embedding helper is called with `logger=None` (line 92 of
the source); the except handler does `logger.error(...)` then returns `[]`. -/
def buscar_chunks_similares (query : String) (top_k : Nat) (hasLogger : Bool)
    (embedSvc : Except String (List ℚ)) (db : DBEnv) : PyM (List Chunk) :=
  pyTry
    (withLog hasLogger
      (pyBind (generar_embedding_query query false embedSvc)
        (fun query_embedding =>
          if query_embedding = [] then
            withLog hasLogger (pyPure [])
          else fun t =>
            match db.connectFail with
            | some m => (.error (.exception m), t)
            | none =>
              match db.queryFail with
              | some m => (.error (.exception m), t)
              | none =>
                (.ok (((sortByDist db.dist query_embedding db.corpus).take top_k).map
                  (rowToChunk db.dist query_embedding)), t))))
    (fun _ => withLog hasLogger (pyPure []))

/-- Module-level `busqueda_cupra_chunks`: logs the outcome and returns the
results; its own except handler only prints, so it never re-raises. -/
def busqueda_cupra_chunks (query : String) (top_k : Nat) (hasLogger : Bool)
    (embedSvc : Except String (List ℚ)) (db : DBEnv) : PyM (List Chunk) :=
  pyTry
    (pyBind (buscar_chunks_similares query top_k hasLogger embedSvc db)
      (fun resultados =>
        if resultados.isEmpty then withLog hasLogger (pyPure resultados)
        else withLog hasLogger (pyPure resultados)))
    (fun _ => pyPure [])

/-- The health mapping returned by `verificar_salud_bd`. -/
structure Salud where
  pgvector_instalado : Bool
  tabla_existe : Bool
  indice_vectorial : Bool
  conexion_ok : Bool
  error : Option String
deriving DecidableEq, Repr

/-- `CupraRetrieval.verificar_salud_bd`: on success returns the three probe
booleans plus `conexion_ok = true`; any exception is caught and turned into a
mapping with all four booleans `false` and `error = str(e)` (the handler only
prints, so it cannot itself raise). -/
def verificar_salud_bd (healthSvc : Except String (Bool × Bool × Bool)) : PyM Salud :=
  pyTry
    (fun t =>
      match healthSvc with
      | .ok (p, tb, ix) => (.ok (Salud.mk p tb ix true none), t)
      | .error m => (.error (.exception m), t))
    (fun e => pyPure (Salud.mk false false false false (some (pyStr e))))

/-- `CupraRetrieval.obtener_estadisticas_bd`: returns the statistics mapping
(we model only `total_chunks`, as `some n`), or the empty mapping (`none`)
after `logger.warning(...)` on failure — which raises `AttributeError` when
called without a logger, as `CupraRAGPipeline.__init__` does. -/
def obtener_estadisticas_bd (hasLogger : Bool) (statsSvc : Except String Nat) :
    PyM (Option Nat) :=
  pyTry
    (fun t =>
      match statsSvc with
      | .ok n => (.ok (some n), t)
      | .error m => (.error (.exception m), t))
    (fun _ => withLog hasLogger (pyPure none))

/-- The dict returned by `paso_2_llm` (keys `respuesta`, `contexto_usado`,
`confianza`, `fuentes`). -/
structure Fuente where
  titulo : String
  similitud : ℚ
  subchunk : Int
  chunk_id : Nat
deriving DecidableEq, Repr

structure RespuestaLLM where
  respuesta : String
  contexto_usado : List String
  confianza : ℚ
  fuentes : List Fuente
deriving DecidableEq, Repr

/-- The fixed apology fallback returned by `paso_2_llm` when no chunks were
retrieved. -/
def fallbackRespuesta : RespuestaLLM :=
  RespuestaLLM.mk
    "Lo siento, no encontré información relevante en el manual de CUPRA para responder tu consulta. ¿Podrías reformular tu pregunta o ser más específico?"
    [] 0 []

/-- `CupraRAGPipeline._construir_contexto`, enumerating chunks from 1. -/
def construirAux : Nat → List Chunk → List String
  | _, [] => []
  | i, c :: cs =>
    ("INFORMACIÓN " ++ toString i ++ ":\n"
      ++ "Título: " ++ c.titulo ++ "\n"
      ++ (if c.subchunk > 0 then "Sección: " ++ toString c.subchunk ++ "\n" else "")
      ++ "Contenido: " ++ c.cont ++ "\n") :: construirAux (i + 1) cs

def construir_contexto (chunks : List Chunk) : List String :=
  construirAux 1 chunks

/-- `CupraRAGPipeline._crear_prompt_cupra`. -/
def crear_prompt_cupra (query : String) (contexto : List String) : String :=
  let contexto_str := String.intercalate "\n\n" contexto
  "Basándote EXCLUSIVAMENTE en la siguiente información del manual oficial de CUPRA, responde la consulta del usuario de manera precisa y útil.\n\nINFORMACIÓN DEL MANUAL CUPRA:\n"
    ++ contexto_str
    ++ "\n\nCONSULTA DEL USUARIO:\n"
    ++ query
    ++ "\n\nINSTRUCCIONES DE FORMATO Y CONTENIDO:\n1. Responde ÚNICAMENTE basándote en la información proporcionada del manual\n2. IMPORTANTE - Estructura tu respuesta de forma clara y legible:\n   - Usa SALTOS DE LÍNEA entre secciones principales\n   - Para pasos numerados, pon cada paso en una nueva línea\n   - Separa claramente las secciones (ej: pasos principales, condiciones, precauciones)\n   - Usa **negrita** para títulos de secciones importantes\n   - Deja una línea en blanco entre párrafos diferentes\n3. Si hay procedimientos paso a paso:\n   - Numera cada paso principal (1., 2., 3., etc.)\n   - Los sub-pasos van con guiones (-)\n   - Cada paso en su propia línea\n4. Agrupa la información en secciones lógicas como:\n   - Pasos principales\n   - Condiciones importantes\n   - Precauciones o advertencias\n   - Información adicional\n5. Mantén un tono profesional pero accesible\n6. Si la información no es suficiente, indícalo claramente al final\n\nFORMATO DE EJEMPLO para respuestas con pasos:\n\n**Título de la función**\n\n**Pasos principales:**\n\n1. **Primer paso**\n   - Detalle del paso\n   - Otro detalle si es necesario\n\n2. **Segundo paso**\n   - Explicación clara\n\n**Condiciones importantes:**\n- Primera condición\n- Segunda condición\n\n**Precauciones:**\n⚠️ Advertencia importante\n\nRESPUESTA:"

/-- `CupraRAGPipeline._crear_prompt_quality`. -/
def crear_prompt_quality (query : String) (respuesta_llm : RespuestaLLM) : String :=
  "Evalúa del 1 al 10 la calidad de esta respuesta sobre vehículos CUPRA:\n\nCONSULTA:\n"
    ++ query
    ++ "\n\nRESPUESTA:\n"
    ++ respuesta_llm.respuesta
    ++ "\n\nCRITERIOS DE EVALUACIÓN:\n1. Relevancia: ¿Responde directamente a la consulta?\n2. Precisión: ¿Es técnicamente correcta?\n3. Completitud: ¿Cubre los aspectos importantes?\n4. Claridad: ¿Es fácil de entender?\n5. Fundamentación: ¿Está basada en la información proporcionada?\n\nResponde SOLO con el número del 1 al 10:"

/-- `CupraRAGPipeline.paso_1_rag`: logs, then a `try/except` around the
retrieval call; any exception degrades to `[]`. -/
def paso_1_rag (query : String) (top_k : Nat) (hasLogger : Bool)
    (embedSvc : Except String (List ℚ)) (db : DBEnv) : PyM (List Chunk) :=
  withLog hasLogger
    (pyTry
      (pyBind (busqueda_cupra_chunks query top_k hasLogger embedSvc db)
        (fun resultados =>
          if resultados.isEmpty then withLog hasLogger (pyPure resultados)
          else withLog hasLogger (pyPure resultados)))
      (fun _ => withLog hasLogger (pyPure [])))

/-- `CupraRAGPipeline.paso_2_llm`: empty-chunks guard returning the fixed
fallback dict without any model call, otherwise context + prompt construction,
the chat-completion call, mean-similarity confidence, and the per-chunk
source attributions; the except handler degrades to an error-describing dict
with confidence `0.0` and no sources. -/
def paso_2_llm (query : String) (chunks_relevantes : List Chunk) (hasLogger : Bool)
    (llmGen : Except String String) : PyM RespuestaLLM :=
  withLog hasLogger
    (if chunks_relevantes.isEmpty then
      withLog hasLogger (pyPure fallbackRespuesta)
    else
      pyTry
        (withLog hasLogger
          (let contexto := construir_contexto chunks_relevantes
           withLog hasLogger
             (let _prompt := crear_prompt_cupra query contexto
              withLog hasLogger
                (fun t =>
                  match llmGen with
                  | .error m => (.error (.exception m), bumpLLM t)
                  | .ok respuesta_texto =>
                    let confianza :=
                      (chunks_relevantes.map Chunk.similitud).sum /
                        (chunks_relevantes.length : ℚ)
                    let fuentes := chunks_relevantes.map (fun c =>
                      Fuente.mk c.titulo c.similitud c.subchunk c.chunk_id)
                    withLog hasLogger
                      (pyPure (RespuestaLLM.mk respuesta_texto contexto confianza fuentes))
                      (bumpLLM t)))))
        (fun e =>
          withLog hasLogger
            (pyPure (RespuestaLLM.mk ("Error generando respuesta: " ++ pyStr e) [] 0 []))))

/-- Tail of a Python integer literal after its first digit: digits with single
underscores strictly between digits (`int("1_0")` parses, `int("1__0")` does
not). -/
def pyDigitsTail : List Char → Bool
  | [] => true
  | c :: cs =>
    if c.isDigit then pyDigitsTail cs
    else if c = '_' then
      match cs with
      | [] => false
      | d :: cs2 => d.isDigit && pyDigitsTail cs2
    else false

/-- Whether Python `int(s)` succeeds on an already-stripped string `s`:
optional sign, then a nonempty digit run with single underscores between
digits. -/
def pyIntValid (s : String) : Bool :=
  match s.toList with
  | [] => false
  | c :: cs =>
    if c = '+' ∨ c = '-' then
      match cs with
      | [] => false
      | d :: ds => d.isDigit && pyDigitsTail ds
    else c.isDigit && pyDigitsTail cs

def digitsToNat (l : List Char) : Nat :=
  l.foldl (fun acc c => if c = '_' then acc else acc * 10 + (c.toNat - 48)) 0

def pyIntVal (s : String) : Int :=
  match s.toList with
  | [] => 0
  | c :: cs =>
    if c = '-' then -(digitsToNat cs : Int)
    else if c = '+' then (digitsToNat cs : Int)
    else (digitsToNat (c :: cs) : Int)

/-- Python `int(s)` on an already-stripped string: `some n` on success,
`none` when `ValueError` would be raised. -/
def pyInt (s : String) : Option Int :=
  if pyIntValid s then some (pyIntVal s) else none

/-- Modelled from the spec and claim wording (§4.5): the intended
evaluator-output mapping — the string form of the parsed integer when the
stripped reply parses as an integer in `[1, 10]`, and `"5"` on a parse
failure, an out-of-range integer, or a model-call exception.  Used as the
reference point that `paso_3_quality_agent` is proved to implement. -/
def scoreSpec (reply : Except String String) : String :=
  match reply with
  | .error _ => "5"
  | .ok content =>
    match pyInt (pyStrip content) with
    | none => "5"
    | some p => if 1 ≤ p ∧ p ≤ 10 then toString p else "5"

/-- `CupraRAGPipeline.paso_3_quality_agent`: builds the rubric prompt, calls
the evaluator model, strips and integer-parses the reply with the in-range
check, and falls back to `"5"` on a parse failure, out-of-range value, or any
model-call exception. -/
def paso_3_quality_agent (query : String) (respuesta_llm : RespuestaLLM) (hasLogger : Bool)
    (llmEval : Except String String) : PyM String :=
  withLog hasLogger
    (pyTry
      (let _prompt := crear_prompt_quality query respuesta_llm
       fun t =>
         match llmEval with
         | .error m => (.error (.exception m), bumpLLM t)
         | .ok content =>
           let evaluacion_texto := pyStrip content
           (match pyInt evaluacion_texto with
            | some puntuacion =>
              if 1 ≤ puntuacion ∧ puntuacion ≤ 10 then
                withLog hasLogger (pyPure (toString puntuacion))
              else withLog hasLogger (pyPure "5")
            | none => withLog hasLogger (pyPure "5"))
             (bumpLLM t))
      (fun _ => withLog hasLogger (pyPure "5")))

/-- `CupraRAGPipeline.__init__`: the health check gates on `conexion_ok`, then
the statistics gate on `total_chunks`; `obtener_estadisticas_bd` is called
without a logger. -/
def pipelineInit (healthSvc : Except String (Bool × Bool × Bool))
    (statsSvc : Except String Nat) : PyM Unit :=
  pyBind (verificar_salud_bd healthSvc)
    (fun salud_bd =>
      if salud_bd.conexion_ok = false then
        pyThrow (.exception "❌ No se puede conectar a la base de datos PostgreSQL")
      else
        pyBind (obtener_estadisticas_bd false statsSvc)
          (fun stats =>
            if stats.getD 0 = 0 then
              pyThrow (.exception "❌ No hay chunks en la base de datos")
            else pyPure ()))

/-- The external environment of one `procesar_consulta_completa` call. -/
structure Env where
  hasLogger : Bool
  embedSvc : Except String (List ℚ)
  db : DBEnv
  llmGen : Except String String
  llmEval : Except String String
  now : String

/-- The aggregated dict returned by `procesar_consulta_completa`. -/
structure ResultadoFinal where
  query : String
  chunks_recuperados : List Chunk
  respuesta_llm : RespuestaLLM
  evaluacion_calidad : String
  timestamp : String
  fuente : String
deriving DecidableEq, Repr

/-- `CupraRAGPipeline.procesar_consulta_completa`: logs, runs the three stages
in sequence and aggregates query, chunks, answer, score, the timestamp and the
fixed `'PostgreSQL'` source label. -/
def procesar_consulta_completa (env : Env) (query : String) : PyM ResultadoFinal :=
  withLog env.hasLogger
    (pyBind (paso_1_rag query 4 env.hasLogger env.embedSvc env.db)
      (fun chunks_relevantes =>
        pyBind (paso_2_llm query chunks_relevantes env.hasLogger env.llmGen)
          (fun respuesta_llm =>
            pyBind (paso_3_quality_agent query respuesta_llm env.hasLogger env.llmEval)
              (fun evaluacion_calidad =>
                pyPure (ResultadoFinal.mk query chunks_relevantes respuesta_llm
                  evaluacion_calidad env.now "PostgreSQL")))))

/-- The value `buscar_chunks_similares` produces when a logger is supplied:
empty on a whitespace query, on an embedding failure, on an empty embedding
vector and on any data-layer failure; otherwise the `top_k` nearest rows
mapped to chunk dicts. -/
def buscarPure (q : String) (k : Nat) (emb : Except String (List ℚ)) (db : DBEnv) :
    List Chunk :=
  if pyStrip q = "" then []
  else
    match emb with
    | .error _ => []
    | .ok v =>
      if v = [] then []
      else
        match db.connectFail with
        | some _ => []
        | none =>
          match db.queryFail with
          | some _ => []
          | none => ((sortByDist db.dist v db.corpus).take k).map (rowToChunk db.dist v)

/-- The trace after one retrieval: the embedding model is contacted exactly
when the query is not whitespace-only. -/
def buscarTrace (q : String) (t : Trace) : Trace :=
  if pyStrip q = "" then t else bumpEmbed t

theorem buscar_run (q : String) (k : Nat) (emb : Except String (List ℚ)) (db : DBEnv)
    (t : Trace) :
    buscar_chunks_similares q k true emb db t
      = (.ok (buscarPure q k emb db), buscarTrace q t) := by
  by_cases hq : pyStrip q = ""
  · simp [buscar_chunks_similares, pyTry, withLog, pyBind, generar_embedding_query, hq,
      buscarPure, buscarTrace, pyPure]
  · cases emb with
    | error m =>
      simp [buscar_chunks_similares, pyTry, withLog, pyBind, generar_embedding_query, hq,
        buscarPure, buscarTrace, pyPure]
    | ok v =>
      by_cases hv : v = []
      · simp [buscar_chunks_similares, pyTry, withLog, pyBind, generar_embedding_query, hq,
          hv, buscarPure, buscarTrace, pyPure]
      · cases hc : db.connectFail with
        | some m =>
          simp [buscar_chunks_similares, pyTry, withLog, pyBind, generar_embedding_query,
            hq, hv, hc, buscarPure, buscarTrace, pyPure]
        | none =>
          cases hf : db.queryFail with
          | some m =>
            simp [buscar_chunks_similares, pyTry, withLog, pyBind, generar_embedding_query,
              hq, hv, hc, hf, buscarPure, buscarTrace, pyPure]
          | none =>
            simp [buscar_chunks_similares, pyTry, withLog, pyBind, generar_embedding_query,
              hq, hv, hc, hf, buscarPure, buscarTrace, pyPure]

theorem busqueda_run (q : String) (k : Nat) (emb : Except String (List ℚ)) (db : DBEnv)
    (t : Trace) :
    busqueda_cupra_chunks q k true emb db t
      = (.ok (buscarPure q k emb db), buscarTrace q t) := by
  simp [busqueda_cupra_chunks, pyTry, pyBind, buscar_run, withLog, pyPure]

theorem paso1_run (q : String) (k : Nat) (emb : Except String (List ℚ)) (db : DBEnv)
    (t : Trace) :
    paso_1_rag q k true emb db t
      = (.ok (buscarPure q k emb db), buscarTrace q t) := by
  simp [paso_1_rag, pyTry, pyBind, busqueda_run, withLog, pyPure]

/-- The value `paso_2_llm` produces when a logger is supplied. -/
def paso2Pure (q : String) (chunks : List Chunk) (gen : Except String String) :
    RespuestaLLM :=
  if chunks.isEmpty then fallbackRespuesta
  else
    match gen with
    | .error m => RespuestaLLM.mk ("Error generando respuesta: " ++ m) [] 0 []
    | .ok texto =>
      RespuestaLLM.mk texto (construir_contexto chunks)
        ((chunks.map Chunk.similitud).sum / (chunks.length : ℚ))
        (chunks.map (fun c => Fuente.mk c.titulo c.similitud c.subchunk c.chunk_id))

theorem paso2_run (q : String) (chunks : List Chunk) (gen : Except String String)
    (t : Trace) :
    paso_2_llm q chunks true gen t
      = (.ok (paso2Pure q chunks gen), if chunks.isEmpty then t else bumpLLM t) := by
  by_cases hc : chunks.isEmpty
  · simp [paso_2_llm, withLog, pyPure, paso2Pure, hc]
  · cases gen with
    | error m => simp [paso_2_llm, withLog, pyTry, pyPure, paso2Pure, hc, pyStr]
    | ok texto => simp [paso_2_llm, withLog, pyTry, pyPure, paso2Pure, hc]

theorem paso3_run (q : String) (resp : RespuestaLLM) (ev : Except String String)
    (t : Trace) :
    paso_3_quality_agent q resp true ev t = (.ok (scoreSpec ev), bumpLLM t) := by
  cases ev with
  | error m => simp [paso_3_quality_agent, withLog, pyTry, pyPure, scoreSpec]
  | ok content =>
    cases hp : pyInt (pyStrip content) with
    | none => simp [paso_3_quality_agent, withLog, pyTry, pyPure, scoreSpec, hp]
    | some p =>
      by_cases hr : 1 ≤ p ∧ p ≤ 10
      · simp [paso_3_quality_agent, withLog, pyTry, pyPure, scoreSpec, hp, hr]
      · simp [paso_3_quality_agent, withLog, pyTry, pyPure, scoreSpec, hp, hr]

theorem procesar_run (emb : Except String (List ℚ)) (db : DBEnv)
    (gen ev : Except String String) (now q : String) (t : Trace) :
    procesar_consulta_completa (Env.mk true emb db gen ev now) q t
      = (.ok (ResultadoFinal.mk q (buscarPure q 4 emb db)
            (paso2Pure q (buscarPure q 4 emb db) gen) (scoreSpec ev) now "PostgreSQL"),
          bumpLLM (if (buscarPure q 4 emb db).isEmpty then buscarTrace q t
            else bumpLLM (buscarTrace q t))) := by
  simp [procesar_consulta_completa, withLog, pyBind, paso1_run, paso2_run, paso3_run, pyPure]

theorem buscarPure_embed_error (q : String) (k : Nat) (m : String) (db : DBEnv) :
    buscarPure q k (.error m) db = [] := by
  by_cases hq : pyStrip q = "" <;> simp [buscarPure, hq]

theorem buscarPure_embed_empty (q : String) (k : Nat) (db : DBEnv) :
    buscarPure q k (.ok []) db = [] := by
  by_cases hq : pyStrip q = "" <;> simp [buscarPure, hq]

theorem buscarPure_connect_fail (q : String) (k : Nat) (emb : Except String (List ℚ))
    (db : DBEnv) (m : String) (hm : db.connectFail = some m) :
    buscarPure q k emb db = [] := by
  by_cases hq : pyStrip q = ""
  · simp [buscarPure, hq]
  · cases emb with
    | error m2 => simp [buscarPure, hq]
    | ok v => by_cases hv : v = [] <;> simp [buscarPure, hq, hv, hm]

theorem buscarPure_query_fail (q : String) (k : Nat) (emb : Except String (List ℚ))
    (db : DBEnv) (m : String) (hm : db.queryFail = some m) :
    buscarPure q k emb db = [] := by
  by_cases hq : pyStrip q = ""
  · simp [buscarPure, hq]
  · cases emb with
    | error m2 => simp [buscarPure, hq]
    | ok v =>
      by_cases hv : v = []
      · simp [buscarPure, hq, hv]
      · cases hc : db.connectFail with
        | some m2 => simp [buscarPure, hq, hv, hc]
        | none => simp [buscarPure, hq, hv, hc, hm]

/-- C1: for every query string, the Generation Stage (`paso_2_llm`, on a
pipeline holding a logger, as `app.py` builds it) called with an empty chunk
list returns the fixed apology fallback with confidence exactly `0`, empty
sources and empty context, and the trace is unchanged: no language-model call
is made. -/
theorem paso2_llm_empty_chunks_fallback (q : String) (gen : Except String String)
    (t : Trace) :
    paso_2_llm q [] true gen t = (.ok fallbackRespuesta, t)
      ∧ fallbackRespuesta.confianza = 0
      ∧ fallbackRespuesta.fuentes = []
      ∧ fallbackRespuesta.contexto_usado = [] := by
  refine ⟨?_, rfl, rfl, rfl⟩
  simpa [paso2Pure] using paso2_run q [] gen t

/-- C2: for every non-empty chunk list, when the generation model call
succeeds, `paso_2_llm` (on a pipeline holding a logger) returns a result whose
confidence is the exact arithmetic mean of the chunks' similarities and whose
sources list has the same length as the chunk list, entry `i` carrying the
title, similarity, subchunk index and chunk id of chunk `i`, in order. -/
theorem paso2_llm_confidence_mean_sources (q : String) (chunks : List Chunk)
    (texto : String) (t : Trace) (h : chunks ≠ []) :
    ∃ r : RespuestaLLM,
      paso_2_llm q chunks true (.ok texto) t = (.ok r, bumpLLM t)
        ∧ r.confianza = (chunks.map Chunk.similitud).sum / (chunks.length : ℚ)
        ∧ r.fuentes.length = chunks.length
        ∧ ∀ i : Fin chunks.length,
            r.fuentes[(i : Nat)]? =
              some (Fuente.mk (chunks.get i).titulo (chunks.get i).similitud
                (chunks.get i).subchunk (chunks.get i).chunk_id) := by
  have hne : chunks.isEmpty = false := by cases chunks <;> simp_all
  refine ⟨paso2Pure q chunks (.ok texto), ?_, ?_, ?_, ?_⟩
  · simpa [hne] using paso2_run q chunks (.ok texto) t
  · simp [paso2Pure, hne]
  · simp [paso2Pure, hne]
  · intro i
    simp [paso2Pure, hne, List.getElem?_map, List.getElem?_eq_getElem i.isLt,
      List.get_eq_getElem]

theorem paso2_llm_confidence_mean_sources_witness :
    ∃ r : RespuestaLLM,
      paso_2_llm "hola"
          [Chunk.mk 1 "Ajuste de asientos" "contenido a" (91/100) 0 120 "d1",
           Chunk.mk 2 "Luces" "contenido b" (4/5) 1 80 "d2"]
          true (.ok "texto generado") (Trace.mk 0 0)
        = (.ok r, bumpLLM (Trace.mk 0 0))
        ∧ r.confianza =
            (([Chunk.mk 1 "Ajuste de asientos" "contenido a" (91/100) 0 120 "d1",
               Chunk.mk 2 "Luces" "contenido b" (4/5) 1 80 "d2"]).map Chunk.similitud).sum /
              ((2 : Nat) : ℚ)
        ∧ r.fuentes.length = 2 := by
  obtain ⟨r, h1, h2, h3, _⟩ :=
    paso2_llm_confidence_mean_sources "hola"
      [Chunk.mk 1 "Ajuste de asientos" "contenido a" (91/100) 0 120 "d1",
       Chunk.mk 2 "Luces" "contenido b" (4/5) 1 80 "d2"]
      "texto generado" (Trace.mk 0 0) (List.cons_ne_nil _ _)
  exact ⟨r, h1, h2, h3⟩

/-- C3: the Quality Evaluation Stage (`paso_3_quality_agent`, on a pipeline
holding a logger) implements exactly the intended evaluator-output mapping
`scoreSpec`: the string form of the reply's integer when the stripped reply
parses as an integer in `[1, 10]`, and exactly `"5"` for any reply that does
not parse, parses outside `[1, 10]`, or for any model-call exception; exactly
one evaluator-model call is made. -/
theorem paso3_quality_agent_score_spec (q : String) (resp : RespuestaLLM)
    (ev : Except String String) (t : Trace) :
    paso_3_quality_agent q resp true ev t = (.ok (scoreSpec ev), bumpLLM t) :=
  paso3_run q resp ev t

/-- C4: pipeline construction succeeds exactly when the health check succeeds
(so `conexion_ok = true`) and the statistics report `total_chunks > 0`; it
raises when the health check fails, when the statistics are unavailable
(`total_chunks` missing) and when `total_chunks = 0`. -/
theorem pipeline_init_preconditions (h : Except String (Bool × Bool × Bool))
    (s : Except String Nat) (t : Trace) :
    (∃ t2, pipelineInit h s t = (.ok (), t2))
      ↔ ((∃ b, h = .ok b) ∧ ∃ n, s = .ok n ∧ 0 < n) := by
  cases h with
  | error m =>
    simp [pipelineInit, verificar_salud_bd, obtener_estadisticas_bd, pyTry, pyBind,
      pyThrow, pyPure, withLog]
  | ok trip =>
    obtain ⟨p, tb, ix⟩ := trip
    cases s with
    | error m =>
      simp [pipelineInit, verificar_salud_bd, obtener_estadisticas_bd, pyTry, pyBind,
        pyThrow, pyPure, withLog]
    | ok n =>
      by_cases hn : n = 0
      · subst hn
        simp [pipelineInit, verificar_salud_bd, obtener_estadisticas_bd, pyTry, pyBind,
          pyThrow, pyPure, withLog]
      · simp [pipelineInit, verificar_salud_bd, obtener_estadisticas_bd, pyTry, pyBind,
          pyThrow, pyPure, withLog, hn]
        omega

theorem pipeline_init_preconditions_witness :
    ∃ t2, pipelineInit (.ok (true, true, true)) (.ok 5) (Trace.mk 0 0) = (.ok (), t2) :=
  (pipeline_init_preconditions (.ok (true, true, true)) (.ok 5) (Trace.mk 0 0)).mpr
    ⟨⟨(true, true, true), rfl⟩, 5, rfl, by omega⟩

/-- C5 counterexample: the health check stores `str(e)` verbatim, so an
exception whose text is empty (`str(Exception()) == ""` in Python) yields an
unreachable-store mapping whose `error` string is empty, contradicting the
claimed "non-empty error string". -/
theorem verificar_salud_empty_error_counterexample :
    verificar_salud_bd (.error "") (Trace.mk 0 0)
      = (.ok (Salud.mk false false false false (some "")), Trace.mk 0 0) := rfl

/-- C5 (amended): the health check never raises — for every store behavior it
returns a mapping with the trace unchanged — and on any connectivity failure
the mapping has all four booleans `false` and `error` equal to the exception's
message, which is non-empty exactly when that message is. -/
theorem verificar_salud_never_raises :
    (∀ (hs : Except String (Bool × Bool × Bool)) (t : Trace), ∃ s : Salud,
        verificar_salud_bd hs t = (.ok s, t))
      ∧ (∀ (m : String) (t : Trace), ∃ s : Salud,
          verificar_salud_bd (.error m) t = (.ok s, t)
            ∧ s.pgvector_instalado = false ∧ s.tabla_existe = false
            ∧ s.indice_vectorial = false ∧ s.conexion_ok = false
            ∧ s.error = some m
            ∧ (m ≠ "" → s.error ≠ some "")) := by
  constructor
  · intro hs t
    cases hs with
    | ok trip => obtain ⟨p, tb, ix⟩ := trip; exact ⟨_, rfl⟩
    | error m => exact ⟨_, rfl⟩
  · intro m t
    refine ⟨Salud.mk false false false false (some m), rfl, rfl, rfl, rfl, rfl, rfl, ?_⟩
    intro hm hcontra
    exact hm (Option.some.inj hcontra)

theorem verificar_salud_never_raises_witness :
    ∃ s : Salud,
      verificar_salud_bd (.error "could not connect to server") (Trace.mk 0 0)
          = (.ok s, Trace.mk 0 0)
        ∧ s.conexion_ok = false ∧ s.error ≠ some "" := by
  obtain ⟨s, h1, _, _, _, h4, _, h6⟩ :=
    verificar_salud_never_raises.2 "could not connect to server" (Trace.mk 0 0)
  exact ⟨s, h1, h4, h6 (by decide)⟩

/-- A concrete database environment for counterexamples and witnesses: healthy
connection, empty corpus, constant distance operator. -/
def dbDemo : DBEnv := DBEnv.mk none none [] (fun _ _ => 0)

/-- C6 counterexample: called with its default `logger=None` — exactly how the
repository's own `__main__` block of `cupra_retrieval.py` reaches it via
`busqueda_cupra_chunks(query, top_k=4)` — `buscar_chunks_similares` raises
`AttributeError` to its caller instead of returning a sequence, already at the
`logger.debug` call, even before consulting the embedding model. -/
theorem buscar_chunks_no_logger_counterexample :
    buscar_chunks_similares "hola" 4 false (.error "fallo embedding") dbDemo (Trace.mk 0 0)
      = (.error .attributeError, Trace.mk 0 0) := rfl

/-- C6 (amended): provided a logger is supplied (as the pipeline always does),
the nearest-neighbor search never raises: for every query and every `k` it
returns a sequence, and on an embedding failure, an empty embedding vector, or
any data-layer failure (connection or query) it returns the empty sequence. -/
theorem buscar_chunks_never_raises_with_logger (q : String) (k : Nat)
    (emb : Except String (List ℚ)) (db : DBEnv) (t : Trace) :
    (∃ l : List Chunk, buscar_chunks_similares q k true emb db t = (.ok l, buscarTrace q t))
      ∧ (∀ m, emb = .error m →
          buscar_chunks_similares q k true emb db t = (.ok [], buscarTrace q t))
      ∧ (emb = .ok [] →
          buscar_chunks_similares q k true emb db t = (.ok [], buscarTrace q t))
      ∧ (∀ m, db.connectFail = some m →
          buscar_chunks_similares q k true emb db t = (.ok [], buscarTrace q t))
      ∧ (∀ m, db.queryFail = some m →
          buscar_chunks_similares q k true emb db t = (.ok [], buscarTrace q t)) := by
  refine ⟨⟨buscarPure q k emb db, buscar_run q k emb db t⟩, ?_, ?_, ?_, ?_⟩
  · intro m hm
    subst hm
    simpa [buscarPure_embed_error] using buscar_run q k (.error m) db t
  · intro hm
    subst hm
    simpa [buscarPure_embed_empty] using buscar_run q k (.ok []) db t
  · intro m hm
    simpa [buscarPure_connect_fail q k emb db m hm] using buscar_run q k emb db t
  · intro m hm
    simpa [buscarPure_query_fail q k emb db m hm] using buscar_run q k emb db t

theorem buscar_chunks_never_raises_witness :
    buscar_chunks_similares "hola" 4 true (.error "fallo embedding") dbDemo (Trace.mk 0 0)
      = (.ok [], buscarTrace "hola" (Trace.mk 0 0)) :=
  (buscar_chunks_never_raises_with_logger "hola" 4 (.error "fallo embedding") dbDemo
    (Trace.mk 0 0)).2.1 "fallo embedding" rfl

/-- The chunk ids of a retrieval outcome. -/
def chunkIds : Except PyErr (List Chunk) → List Nat
  | .ok l => l.map Chunk.chunk_id
  | .error _ => []

/-- C8: nearest-neighbor retrieval is deterministic in its inputs: for a fixed
stored corpus and distance operator (`db`) and a fixed query-embedding outcome
(`emb`), any two calls with `k = 4` — whatever each call's prior trace — return
the same outcome, and in particular the same chunk ids in the same order. -/
theorem buscar_chunks_deterministic (q : String) (hasLogger : Bool)
    (emb : Except String (List ℚ)) (db : DBEnv) (t t2 : Trace) :
    (buscar_chunks_similares q 4 hasLogger emb db t).1
        = (buscar_chunks_similares q 4 hasLogger emb db t2).1
      ∧ chunkIds (buscar_chunks_similares q 4 hasLogger emb db t).1
          = chunkIds (buscar_chunks_similares q 4 hasLogger emb db t2).1 := by
  cases hasLogger with
  | true => rw [buscar_run, buscar_run]; exact ⟨rfl, rfl⟩
  | false =>
    have hall : ∀ t3 : Trace, buscar_chunks_similares q 4 false emb db t3
        = (.error .attributeError, t3) := by
      intro t3
      simp [buscar_chunks_similares, pyTry, withLog]
    rw [hall, hall]
    exact ⟨rfl, rfl⟩

/-- C7 counterexample: a pipeline constructed without a logger (exactly what
the repository's own `main()` in `cupra_rag_pipeline.py` does with
`CupraRAGPipeline()`), facing a retrieval-stage failure (embedding error),
raises `AttributeError` from `procesar_consulta_completa` instead of returning
a degraded result. -/
theorem procesar_no_logger_counterexample :
    procesar_consulta_completa
        (Env.mk false (.error "fallo embedding") dbDemo (.ok "respuesta") (.ok "7")
          "2026-10-12 00:00:00")
        "hola" (Trace.mk 0 0)
      = (.error .attributeError, Trace.mk 0 0) := rfl

/-- C7 (amended): for a pipeline constructed with a logger, once constructed,
`procesar_consulta_completa` never raises: for every query and every behavior
of the external collaborators it returns a result, and each stage-internal
failure is converted to that stage's degraded value — empty chunk list on a
retrieval failure, the fallback (no chunks) or an error-describing answer with
confidence `0` and empty sources on a generation failure, score `"5"` on an
evaluation failure. -/
theorem procesar_stage_failures_degrade (emb : Except String (List ℚ)) (db : DBEnv)
    (gen ev : Except String String) (now q : String) (t : Trace) :
    ∃ (r : ResultadoFinal) (t2 : Trace),
      procesar_consulta_completa (Env.mk true emb db gen ev now) q t = (.ok r, t2)
        ∧ (∀ m, emb = .error m →
            r.chunks_recuperados = [] ∧ r.respuesta_llm = fallbackRespuesta)
        ∧ (∀ m, db.connectFail = some m → r.chunks_recuperados = [])
        ∧ (∀ m, gen = .error m → r.chunks_recuperados ≠ [] →
            r.respuesta_llm
              = RespuestaLLM.mk ("Error generando respuesta: " ++ m) [] 0 [])
        ∧ (∀ m, ev = .error m → r.evaluacion_calidad = "5") := by
  refine ⟨_, _, procesar_run emb db gen ev now q t, ?_, ?_, ?_, ?_⟩
  · intro m hm
    subst hm
    constructor
    · exact buscarPure_embed_error q 4 m db
    · simp [paso2Pure, buscarPure_embed_error]
  · intro m hm
    exact buscarPure_connect_fail q 4 emb db m hm
  · intro m hm hne
    subst hm
    have hfalse : (buscarPure q 4 emb db).isEmpty = false := by
      simp only [ResultadoFinal.chunks_recuperados] at hne
      cases hb : buscarPure q 4 emb db with
      | nil => exact absurd hb hne
      | cons a as => simp
    simp [paso2Pure, hfalse]
  · intro m hm
    subst hm
    rfl

theorem procesar_stage_failures_degrade_witness :
    ∃ (r : ResultadoFinal) (t2 : Trace),
      procesar_consulta_completa
          (Env.mk true (.error "fallo embedding") dbDemo (.ok "respuesta")
            (.error "timeout") "2026-10-12 00:00:00")
          "hola" (Trace.mk 0 0)
        = (.ok r, t2)
        ∧ r.chunks_recuperados = [] ∧ r.respuesta_llm = fallbackRespuesta
        ∧ r.evaluacion_calidad = "5" := by
  obtain ⟨r, t2, hrun, hemb, _, _, hev⟩ :=
    procesar_stage_failures_degrade (.error "fallo embedding") dbDemo (.ok "respuesta")
      (.error "timeout") "2026-10-12 00:00:00" "hola" (Trace.mk 0 0)
  obtain ⟨h1, h2⟩ := hemb "fallo embedding" rfl
  exact ⟨r, t2, hrun, h1, h2, hev "timeout" rfl⟩

/-- C9: whenever `procesar_consulta_completa` returns a result, that result
aggregates exactly the query string, the chunk list produced by stage 1, the
answer produced by stage 2 on those chunks, the quality score produced by
stage 3 on that answer, the timestamp, and the fixed source label
`'PostgreSQL'`. -/
theorem procesar_result_aggregation (env : Env) (q : String) (t : Trace)
    (r : ResultadoFinal) (t2 : Trace)
    (h : procesar_consulta_completa env q t = (.ok r, t2)) :
    r.query = q ∧ r.fuente = "PostgreSQL" ∧ r.timestamp = env.now
      ∧ ∃ t3, paso_1_rag q 4 env.hasLogger env.embedSvc env.db t
            = (.ok r.chunks_recuperados, t3)
          ∧ ∃ t4, paso_2_llm q r.chunks_recuperados env.hasLogger env.llmGen t3
                = (.ok r.respuesta_llm, t4)
              ∧ paso_3_quality_agent q r.respuesta_llm env.hasLogger env.llmEval t4
                  = (.ok r.evaluacion_calidad, t2) := by
  obtain ⟨l, emb, db, gen, ev, now⟩ := env
  cases l with
  | false =>
    exfalso
    simp [procesar_consulta_completa, withLog] at h
  | true =>
    rw [procesar_run] at h
    rw [Prod.mk.injEq] at h
    obtain ⟨h1, h2⟩ := h
    have h3 := Except.ok.inj h1
    subst h3
    subst h2
    refine ⟨rfl, rfl, rfl, buscarTrace q t, ?_, ?_⟩
    · exact paso1_run q 4 emb db t
    · refine ⟨if (buscarPure q 4 emb db).isEmpty then buscarTrace q t
        else bumpLLM (buscarTrace q t), ?_, ?_⟩
      · exact paso2_run q (buscarPure q 4 emb db) gen (buscarTrace q t)
      · exact paso3_run q (paso2Pure q (buscarPure q 4 emb db) gen) ev _

theorem procesar_result_aggregation_witness :
    (ResultadoFinal.mk "hola" [] fallbackRespuesta "7" "2026-10-12 00:00:00"
        "PostgreSQL").query = "hola"
      ∧ (ResultadoFinal.mk "hola" [] fallbackRespuesta "7" "2026-10-12 00:00:00"
          "PostgreSQL").fuente = "PostgreSQL" := by
  have h := procesar_result_aggregation
    (Env.mk true (.ok [1]) dbDemo (.ok "respuesta generada") (.ok "7")
      "2026-10-12 00:00:00")
    "hola" (Trace.mk 0 0)
    (ResultadoFinal.mk "hola" [] fallbackRespuesta "7" "2026-10-12 00:00:00" "PostgreSQL")
    (Trace.mk 1 1) (by rfl)
  exact ⟨h.1, h.2.1⟩

/-- C10: for every query that is empty or whitespace-only, a pipeline
constructed with a logger does not raise from `procesar_consulta_completa`:
the embedding call short-circuits (the final trace `bumpLLM t` shows the
embedding-call counter unchanged — the embedding model is never contacted),
retrieval returns the empty chunk list, and the generated answer is the fixed
fallback with confidence `0` and empty sources. -/
theorem procesar_whitespace_query (emb : Except String (List ℚ)) (db : DBEnv)
    (gen ev : Except String String) (now q : String) (t : Trace)
    (hq : pyStrip q = "") :
    procesar_consulta_completa (Env.mk true emb db gen ev now) q t
      = (.ok (ResultadoFinal.mk q [] fallbackRespuesta (scoreSpec ev) now "PostgreSQL"),
          bumpLLM t) := by
  rw [procesar_run]
  simp [buscarPure, buscarTrace, hq, paso2Pure]

theorem procesar_whitespace_query_witness :
    procesar_consulta_completa
        (Env.mk true (.ok [1]) dbDemo (.ok "respuesta generada") (.ok "7")
          "2026-10-12 00:00:00")
        "   " (Trace.mk 0 0)
      = (.ok (ResultadoFinal.mk "   " [] fallbackRespuesta "7" "2026-10-12 00:00:00"
            "PostgreSQL"),
          bumpLLM (Trace.mk 0 0)) := by
  have h := procesar_whitespace_query (.ok [1]) dbDemo (.ok "respuesta generada")
    (.ok "7") "2026-10-12 00:00:00" "   " (Trace.mk 0 0) (by rfl)
  exact h
